import Mathlib

/-!
Verification of the request-validation middleware chain of the
producktive server (`server/user/middleware.ts`).

The middleware functions are embedded as pure Lean functions.  An Express
middleware receives `(req, res, next)`; its observable behaviour is which
calls it makes on `res` (status/json writes), whether it calls `next()`,
and how it mutates `req.session`.  We capture this as an `Effect` record:
a count of `next()` calls, the list of response writes performed, and the
resulting session user id.  JavaScript truthiness of the string fields
(`if (req.body.username)` is false for `undefined` and `""`) is modelled
by `truthy`.  The regexes of the source are embedded verbatim as regular
expressions and matched by Brzozowski derivatives, so that acceptance is
exactly language membership (the source patterns use no lookaround or
backreferences, hence JS `RegExp.test` agrees with language membership).
-/

/-! ## Regular expressions (Brzozowski derivatives) -/

/-- Regular expressions over `Char`, with character classes given by a
Boolean predicate, mirroring the JS regex literals of the source. -/
inductive RE where
  | emp : RE
  | eps : RE
  | chr (p : Char → Bool) : RE
  | cat (r s : RE) : RE
  | alt (r s : RE) : RE
  | star (r : RE) : RE

/-- Does the regex accept the empty string? -/
def RE.nullable : RE → Bool
  | .emp => false
  | .eps => true
  | .chr _ => false
  | .cat r s => r.nullable && s.nullable
  | .alt r s => r.nullable || s.nullable
  | .star _ => true

/-- Brzozowski derivative of a regex by one character. -/
def RE.deriv : RE → Char → RE
  | .emp, _ => .emp
  | .eps, _ => .emp
  | .chr p, c => if p c then .eps else .emp
  | .cat r s, c =>
      if r.nullable then .alt (.cat (r.deriv c) s) (s.deriv c)
      else .cat (r.deriv c) s
  | .alt r s, c => .alt (r.deriv c) (s.deriv c)
  | .star r, c => .cat (r.deriv c) (.star r)

/-- Language membership, decided by iterated derivatives. -/
def RE.matches (r : RE) (cs : List Char) : Bool :=
  (cs.foldl RE.deriv r).nullable

/-- `r+` (one or more). -/
def RE.plus (r : RE) : RE := .cat r (.star r)

/-- `r?` (zero or one). -/
def RE.opt (r : RE) : RE := .alt .eps r

/-! ## Character classes of the source regexes (JS semantics) -/

/-- JS `\w`: ASCII letters, digits, and underscore. -/
def isWordChar (c : Char) : Bool := c.isAlphanum || c == '_'

/-- The class `[\w-.]` of the email regex: word chars, hyphen, dot
(inside a character class the hyphen between `\w` and `.` is literal). -/
def isLocalChar (c : Char) : Bool := isWordChar c || c == '-' || c == '.'

/-- The class `[\w-]` of the email regex: word chars and hyphen. -/
def isDomChar (c : Char) : Bool := isWordChar c || c == '-'

/-- JS `.` outside a class (no `s` flag): any char except line terminators. -/
def isDotChar (c : Char) : Bool :=
  !(c == '\n' || c == '\r' || c.val == 0x2028 || c.val == 0x2029)

/-- JS whitespace `\s`: space, tab, line terminators, and the Unicode
space separators. -/
def isJsSpace (c : Char) : Bool :=
  c == ' ' || c == '\t' || c == '\n' || c.val == 11 || c.val == 12 ||
  c == '\r' || c.val == 0xa0 || c.val == 0x1680 ||
  (0x2000 ≤ c.val && c.val ≤ 0x200a) ||
  c.val == 0x2028 || c.val == 0x2029 || c.val == 0x202f ||
  c.val == 0x205f || c.val == 0x3000 || c.val == 0xfeff

/-- The username regex `/^\w+$/i` of `isValidUsername`
(`\w` is case-insensitive already, so the `i` flag is inert). -/
def usernameRE : RE := RE.plus (.chr isWordChar)

/-- The email regex `/^[\w-.]+@([\w-]+.)+[\w-]{2,4}$/g` of `isValidEmail`.
Note the group `([\w-]+.)` ends in an UNESCAPED dot, which matches any
character, not only a literal dot. -/
def emailRE : RE :=
  .cat (RE.plus (.chr isLocalChar))
    (.cat (.chr (fun c => c == '@'))
      (.cat (RE.plus (.cat (RE.plus (.chr isDomChar)) (.chr isDotChar)))
        (.cat (.chr isDomChar)
          (.cat (.chr isDomChar)
            (RE.opt (.cat (.chr isDomChar) (RE.opt (.chr isDomChar))))))))

/-- The password regex `/^\S+$/` of `isValidPassword`. -/
def passwordRE : RE := RE.plus (.chr (fun c => !(isJsSpace c)))

/-! ## Data model -/

/-- A stored user record, with `id` standing for `_id.toString()`. -/
structure User where
  id : String
  username : String
  email : String
  password : String
deriving DecidableEq, Repr

/-- The user collection: a list of user records. -/
abbrev DB := List User

/-- Modelled from the spec: `UserCollection.findOneByUserId` — the user
collection module is not among the provided sources; the spec describes
the entity store as "queried by exact-match filters (by owner id, by
username, by email, by username+password)". -/
def findOneByUserId (db : DB) (uid : String) : Option User :=
  db.find? (fun u => u.id == uid)

/-- Modelled from the spec: `UserCollection.findOneByUsername`,
an exact-match filter by username. -/
def findOneByUsername (db : DB) (name : String) : Option User :=
  db.find? (fun u => u.username == name)

/-- Modelled from the spec: `UserCollection.findOneByEmail`,
an exact-match filter by email. -/
def findOneByEmail (db : DB) (email : String) : Option User :=
  db.find? (fun u => u.email == email)

/-- Modelled from the spec: `UserCollection.findOneByEmailAndPassword`,
an exact-match filter by email and password. -/
def findOneByEmailAndPassword (db : DB) (email pw : String) : Option User :=
  db.find? (fun u => u.email == email && u.password == pw)

/-- The part of an Express request the middleware reads: the session's
user id and the body/query fields.  `none` models an absent field. -/
structure Req where
  sessionUserId : Option String := none
  bodyUsername : Option String := none
  bodyEmail : Option String := none
  bodyPassword : Option String := none
  bodyNotifPeriod : Option String := none
  queryUsername : Option String := none
  queryAuthor : Option String := none
deriving DecidableEq, Repr

/-- JS truthiness of an optional string: `undefined` and `""` are falsy. -/
def truthy : Option String → Bool
  | none => false
  | some s => s != ""

/-- A JSON error body: either `{ error: msg }` (plain) or
`{ error: { field: msg } }` (keyed by a field name). -/
inductive Body where
  | plain (msg : String) : Body
  | keyed (field msg : String) : Body
deriving DecidableEq, Repr

/-- Whether an error body is keyed by a field name. -/
def Body.isKeyed : Body → Bool
  | .plain _ => false
  | .keyed _ _ => true

/-- The observable effect of running one middleware on a request:
how many times `next()` was called, the `(status, body)` response writes
performed, and the session user id after the call. -/
structure Effect where
  nexts : Nat
  writes : List (Nat × Body)
  sessionUserId : Option String
deriving DecidableEq, Repr

/-- Effect of calling `next()` once and writing nothing. -/
def nextEff (s : Option String) : Effect :=
  { nexts := 1, writes := [], sessionUserId := s }

/-- Effect of writing a single `(status, body)` response, no `next()`. -/
def respondEff (s : Option String) (status : Nat) (b : Body) : Effect :=
  { nexts := 0, writes := [(status, b)], sessionUserId := s }

/-! ## The middleware checks (from `server/user/middleware.ts`) -/

/-- `isCurrentSessionUserExists`: if the session carries a (truthy) user
id, look the user up; if gone, set `session.userId = undefined` and
respond 500; otherwise call `next()`. -/
def isCurrentSessionUserExists (db : DB) (req : Req) : Effect :=
  if truthy req.sessionUserId then
    match findOneByUserId db (req.sessionUserId.getD "") with
    | none =>
        respondEff none 500
          (Body.keyed "userNotFound" "User session was not recognized.")
    | some _ => nextEff req.sessionUserId
  else nextEff req.sessionUserId

/-- `isValidUsername`: 400 when a truthy `body.username` fails `/^\w+$/i`. -/
def isValidUsername (req : Req) : Effect :=
  if truthy req.bodyUsername &&
      !(usernameRE.matches (req.bodyUsername.getD "").data) then
    respondEff req.sessionUserId 400
      (Body.keyed "username" "Username must be a nonempty alphanumeric string.")
  else nextEff req.sessionUserId

/-- `isValidEmail`: 400 when a truthy `body.email` fails the email regex. -/
def isValidEmail (req : Req) : Effect :=
  if truthy req.bodyEmail &&
      !(emailRE.matches (req.bodyEmail.getD "").data) then
    respondEff req.sessionUserId 400 (Body.plain "Email must be a valid email!")
  else nextEff req.sessionUserId

/-- `isValidPassword`: 400 when a truthy `body.password` fails `/^\S+$/`. -/
def isValidPassword (req : Req) : Effect :=
  if truthy req.bodyPassword &&
      !(passwordRE.matches (req.bodyPassword.getD "").data) then
    respondEff req.sessionUserId 400 (Body.plain "Password must be a nonempty string.")
  else nextEff req.sessionUserId

/-- The `validPeriod` array of `isValidPeriod`. -/
def validPeriod : List String := ["daily", "weekly", "monthly", "none"]

/-- `isValidPeriod`: 400 when a truthy `body.notifPeriod` is not one of
the allowed periods. -/
def isValidPeriod (req : Req) : Effect :=
  if truthy req.bodyNotifPeriod &&
      !(validPeriod.contains (req.bodyNotifPeriod.getD "")) then
    respondEff req.sessionUserId 400
      (Body.plain "Period must be one of the following: daily,weekly,monthly,none")
  else nextEff req.sessionUserId

/-- `isAccountExists`: 400 naming the missing credential when `email` or
`password` is falsy; otherwise look up by (email, password) and call
`next()` on success, else 401. -/
def isAccountExists (db : DB) (req : Req) : Effect :=
  if !(truthy req.bodyEmail) || !(truthy req.bodyPassword) then
    respondEff req.sessionUserId 400
      (Body.plain ("Missing " ++
        (if truthy req.bodyEmail then "password" else "email") ++
        " credentials for sign in."))
  else
    match findOneByEmailAndPassword db (req.bodyEmail.getD "")
        (req.bodyPassword.getD "") with
    | some _ => nextEff req.sessionUserId
    | none =>
        respondEff req.sessionUserId 401
          (Body.plain "Invalid user login credentials provided.")

/-- `isUsernameNotAlreadyInUse`: pass when `body.username` is falsy, when
no user owns it, or when the owner is the session user; otherwise 409. -/
def isUsernameNotAlreadyInUse (db : DB) (req : Req) : Effect :=
  if !(truthy req.bodyUsername) then nextEff req.sessionUserId
  else
    match findOneByUsername db (req.bodyUsername.getD "") with
    | none => nextEff req.sessionUserId
    | some user =>
        if req.sessionUserId = some user.id then nextEff req.sessionUserId
        else
          respondEff req.sessionUserId 409
            (Body.keyed "username" "An account with this username already exists.")

/-- `isUserLoggedIn`: 403 when the session carries no (truthy) user id. -/
def isUserLoggedIn (req : Req) : Effect :=
  if !(truthy req.sessionUserId) then
    respondEff req.sessionUserId 403
      (Body.keyed "auth" "You must be logged in to complete this action.")
  else nextEff req.sessionUserId

/-- `isUserLoggedOut`: 403 when the session carries a (truthy) user id. -/
def isUserLoggedOut (req : Req) : Effect :=
  if truthy req.sessionUserId then
    respondEff req.sessionUserId 403 (Body.plain "You are already signed in.")
  else nextEff req.sessionUserId

/-- `isEmailNotAlreadyInUse`: pass when `body.email` is falsy, when no
user owns it, or when the owner is the session user; otherwise 409 —
note the source keys the error body under `username`. -/
def isEmailNotAlreadyInUse (db : DB) (req : Req) : Effect :=
  if !(truthy req.bodyEmail) then nextEff req.sessionUserId
  else
    match findOneByEmail db (req.bodyEmail.getD "") with
    | none => nextEff req.sessionUserId
    | some user =>
        if req.sessionUserId = some user.id then nextEff req.sessionUserId
        else
          respondEff req.sessionUserId 409
            (Body.keyed "username" "An account with this email already exists.")

/-- `isUsernameExists`: 400 when `query.username` is falsy, 404 when no
user has that username (the 404 message interpolates `query.author`,
which stringifies to "undefined" when absent), else `next()`. -/
def isUsernameExists (db : DB) (req : Req) : Effect :=
  if !(truthy req.queryUsername) then
    respondEff req.sessionUserId 400 (Body.plain "Provided username must be nonempty")
  else
    match findOneByUsername db (req.queryUsername.getD "") with
    | none =>
        respondEff req.sessionUserId 404
          (Body.plain ("A user with username " ++ req.queryAuthor.getD "undefined" ++
            " does not exist."))
    | some _ => nextEff req.sessionUserId

/-! ## The middleware chain -/

/-- The eleven exported middleware checks. -/
inductive Check where
  | isCurrentSessionUserExists : Check
  | isValidUsername : Check
  | isValidEmail : Check
  | isValidPassword : Check
  | isValidPeriod : Check
  | isAccountExists : Check
  | isUsernameNotAlreadyInUse : Check
  | isUserLoggedIn : Check
  | isUserLoggedOut : Check
  | isEmailNotAlreadyInUse : Check
  | isUsernameExists : Check
deriving DecidableEq, Repr

/-- Run one named check on a request against a user collection. -/
def runCheck (c : Check) (db : DB) (req : Req) : Effect :=
  match c with
  | .isCurrentSessionUserExists => isCurrentSessionUserExists db req
  | .isValidUsername => isValidUsername req
  | .isValidEmail => isValidEmail req
  | .isValidPassword => isValidPassword req
  | .isValidPeriod => isValidPeriod req
  | .isAccountExists => isAccountExists db req
  | .isUsernameNotAlreadyInUse => isUsernameNotAlreadyInUse db req
  | .isUserLoggedIn => isUserLoggedIn req
  | .isUserLoggedOut => isUserLoggedOut req
  | .isEmailNotAlreadyInUse => isEmailNotAlreadyInUse db req
  | .isUsernameExists => isUsernameExists db req

/-- Run an ordered middleware list: each check that calls `next()` hands
the (possibly updated) session on to the rest; a check that responds
stops the chain, and the route handler is reached only when every check
passed. -/
def chainAccepts (db : DB) : List Check → Req → Bool
  | [], _ => true
  | c :: cs, req =>
    if (runCheck c db req).nexts = 1 then
      chainAccepts db cs { req with sessionUserId := (runCheck c db req).sessionUserId }
    else false

/-- Split a character list at every occurrence of a separator. -/
def splitOnChar (sep : Char) : List Char → List (List Char)
  | [] => [[]]
  | c :: cs =>
    match splitOnChar sep cs with
    | [] => [[c]]
    | g :: gs => if c == sep then [] :: g :: gs else (c :: g) :: gs

/-- Modelled from the spec: the "simple `local@domain.tld` pattern" the
spec ascribes to the email validator — a nonempty local part, an `@`, a
nonempty domain, a literal dot, and a nonempty tld, over the regex's own
character classes.  Used to compare the spec's description against the
source regex. -/
def specLocalDomainTld (s : String) : Bool :=
  match splitOnChar '@' s.data with
  | [l, dom] =>
    !(l.isEmpty) && l.all isLocalChar &&
    (match splitOnChar '.' dom with
     | [d, t] =>
       !(d.isEmpty) && !(t.isEmpty) && d.all isDomChar && t.all isDomChar
     | _ => false)
  | _ => false

/-! ## Helper lemmas -/

/-- Every check computes either a pure pass effect or a pure respond
effect (the session is cleared only on the respond path of
`isCurrentSessionUserExists`). -/
theorem runCheck_shape (c : Check) (db : DB) (req : Req) :
    (runCheck c db req = nextEff req.sessionUserId)
    ∨ (∃ s st b, runCheck c db req = respondEff s st b) := by
  cases c <;>
    simp only [runCheck, isCurrentSessionUserExists, isValidUsername,
      isValidEmail, isValidPassword, isValidPeriod, isAccountExists,
      isUsernameNotAlreadyInUse, isUserLoggedIn, isUserLoggedOut,
      isEmailNotAlreadyInUse, isUsernameExists] <;>
    (repeat' split) <;>
    first
      | exact Or.inl rfl
      | exact Or.inr ⟨_, _, _, rfl⟩

/-- A check that passes leaves the session user id unchanged. -/
theorem runCheck_pass_session (c : Check) (db : DB) (req : Req)
    (h : (runCheck c db req).nexts = 1) :
    (runCheck c db req).sessionUserId = req.sessionUserId := by
  rcases runCheck_shape c db req with heq | ⟨s, st, b, heq⟩
  · rw [heq]
    rfl
  · rw [heq] at h
    simp [respondEff] at h

/-- The chain accepts exactly when every check in it passes on the
original request: since a passing check never changes the session, the
request seen by each check is the original one. -/
theorem chainAccepts_eq_all (db : DB) (cs : List Check) (req : Req) :
    chainAccepts db cs req = cs.all (fun c => (runCheck c db req).nexts == 1) := by
  induction cs with
  | nil => rfl
  | cons c cs ih =>
    simp only [chainAccepts, List.all_cons]
    by_cases h : (runCheck c db req).nexts = 1
    · have hs := runCheck_pass_session c db req h
      have : { req with sessionUserId := (runCheck c db req).sessionUserId } = req := by
        rw [hs]
      rw [if_pos h, this, ih, h]
      simp
    · rw [if_neg h]
      have : ((runCheck c db req).nexts == 1) = false := by
        simpa using h
      rw [this]
      simp

/-! ## C1: each check calls next once xor writes exactly one response -/

/-- C1: for every exported middleware check and every request, the check
either calls `next()` exactly once and writes no response, or writes
exactly one error response and does not call `next()` — never both and
never neither. -/
theorem check_next_xor_respond (c : Check) (db : DB) (req : Req) :
    ((runCheck c db req).nexts = 1 ∧ (runCheck c db req).writes = [])
    ∨ ((runCheck c db req).nexts = 0 ∧ (runCheck c db req).writes.length = 1) := by
  rcases runCheck_shape c db req with heq | ⟨s, st, b, heq⟩
  · rw [heq]
    exact Or.inl ⟨rfl, rfl⟩
  · rw [heq]
    exact Or.inr ⟨rfl, rfl⟩

/-! ## C9: swapping two checks does not change accept/reject -/

/-- C9: for every request and every two checks in a route's ordered
middleware list, swapping the two checks does not change whether the
request is finally accepted (reaches the handler) or rejected.  (This
holds for all pairs, since the only session mutation occurs on a
rejecting path and so never influences a later check.) -/
theorem chain_swap_same_outcome (db : DB) (req : Req) (l₁ l₂ l₃ : List Check)
    (a b : Check) :
    chainAccepts db (l₁ ++ a :: (l₂ ++ b :: l₃)) req
      = chainAccepts db (l₁ ++ b :: (l₂ ++ a :: l₃)) req := by
  rw [chainAccepts_eq_all, chainAccepts_eq_all]
  simp only [List.all_append, List.all_cons]
  cases ((runCheck a db req).nexts == 1) <;>
    cases ((runCheck b db req).nexts == 1) <;> simp

/-! ## C3: login-state gates -/

/-- C3: with no (truthy) user id in session, `isUserLoggedIn` responds
403 and does not call `next()`, and any chain containing it rejects the
request, so a gated route handler is never reached; dually, with a user
id in session, `isUserLoggedOut` responds 403 and does not call
`next()`. -/
theorem auth_gates (db : DB) (req : Req) (cs : List Check) :
    (truthy req.sessionUserId = false →
      isUserLoggedIn req = respondEff req.sessionUserId 403
          (Body.keyed "auth" "You must be logged in to complete this action.")
      ∧ (Check.isUserLoggedIn ∈ cs → chainAccepts db cs req = false))
    ∧ (truthy req.sessionUserId = true →
      isUserLoggedOut req = respondEff req.sessionUserId 403
          (Body.plain "You are already signed in.")) := by
  constructor
  · intro h
    constructor
    · simp [isUserLoggedIn, h]
    · intro hmem
      rw [chainAccepts_eq_all]
      apply List.all_eq_false.mpr
      refine ⟨Check.isUserLoggedIn, hmem, ?_⟩
      simp [runCheck, isUserLoggedIn, h, respondEff]
  · intro h
    simp [isUserLoggedOut, h]

/-- Witness for C3 at concrete inputs: a logged-out request is rejected
by `isUserLoggedIn` (and by any chain containing it), and a logged-in
request is rejected by `isUserLoggedOut`. -/
theorem auth_gates_witness :
    (isUserLoggedIn ({} : Req) = respondEff none 403
        (Body.keyed "auth" "You must be logged in to complete this action.")
      ∧ chainAccepts [] [Check.isUserLoggedIn] ({} : Req) = false)
    ∧ isUserLoggedOut { sessionUserId := some "u7" } = respondEff (some "u7") 403
        (Body.plain "You are already signed in.") :=
  ⟨⟨((auth_gates [] {} [Check.isUserLoggedIn]).1 rfl).1,
    ((auth_gates [] {} [Check.isUserLoggedIn]).1 rfl).2 (by decide)⟩,
   (auth_gates [] { sessionUserId := some "u7" } []).2 (by decide)⟩

/-! ## C2: session liveness check -/

/-- C2: when the session carries a user id that no longer resolves to a
user record, `isCurrentSessionUserExists` clears the session user id and
responds 500 with the "User session was not recognized." error, without
calling `next()`; with no session user id, or with one that resolves, it
calls through with the session unchanged. -/
theorem session_liveness (db : DB) (req : Req) (uid : String) :
    (req.sessionUserId = some uid → uid ≠ "" → findOneByUserId db uid = none →
      isCurrentSessionUserExists db req =
        respondEff none 500
          (Body.keyed "userNotFound" "User session was not recognized."))
    ∧ (req.sessionUserId = none → isCurrentSessionUserExists db req = nextEff none)
    ∧ (∀ u : User, req.sessionUserId = some uid → findOneByUserId db uid = some u →
        isCurrentSessionUserExists db req = nextEff (some uid)) := by
  refine ⟨?_, ?_, ?_⟩
  · intro hs hne hf
    simp [isCurrentSessionUserExists, truthy, hs, hne, hf]
  · intro hs
    simp [isCurrentSessionUserExists, truthy, hs, nextEff]
  · intro u hs hf
    by_cases hne : uid = ""
    · subst hne
      simp [isCurrentSessionUserExists, truthy, hs, nextEff]
    · simp [isCurrentSessionUserExists, truthy, hs, hne, hf, nextEff]

/-- Witness for C2 at concrete inputs: a stale session id "u1" over an
empty collection is cleared with a 500; an absent session id and a live
session id "u1" both call through unchanged. -/
theorem session_liveness_witness :
    isCurrentSessionUserExists [] { sessionUserId := some "u1" } =
        respondEff none 500
          (Body.keyed "userNotFound" "User session was not recognized.")
    ∧ isCurrentSessionUserExists [] ({} : Req) = nextEff none
    ∧ isCurrentSessionUserExists [⟨"u1", "bob", "b@c.com", "pw"⟩]
        { sessionUserId := some "u1" } = nextEff (some "u1") :=
  ⟨(session_liveness [] { sessionUserId := some "u1" } "u1").1 rfl (by decide) rfl,
   (session_liveness [] {} "u1").2.1 rfl,
   (session_liveness [⟨"u1", "bob", "b@c.com", "pw"⟩]
      { sessionUserId := some "u1" } "u1").2.2 ⟨"u1", "bob", "b@c.com", "pw"⟩ rfl
      (by decide)⟩

/-! ## C4: uniqueness checks -/

/-- C4: for a truthy candidate username (resp. email) in the body, the
uniqueness check responds 409 when a user other than the current
session's user owns the value, and calls through when no user owns it,
when the owner is the session user, or when the field is absent. -/
theorem uniqueness_checks (db : DB) (req : Req) :
    ((truthy req.bodyUsername = false →
        isUsernameNotAlreadyInUse db req = nextEff req.sessionUserId)
     ∧ ∀ s : String, req.bodyUsername = some s → s ≠ "" →
        ((findOneByUsername db s = none →
            isUsernameNotAlreadyInUse db req = nextEff req.sessionUserId)
         ∧ (∀ u : User, findOneByUsername db s = some u →
              req.sessionUserId = some u.id →
              isUsernameNotAlreadyInUse db req = nextEff req.sessionUserId)
         ∧ (∀ u : User, findOneByUsername db s = some u →
              req.sessionUserId ≠ some u.id →
              isUsernameNotAlreadyInUse db req =
                respondEff req.sessionUserId 409
                  (Body.keyed "username" "An account with this username already exists."))))
    ∧ ((truthy req.bodyEmail = false →
        isEmailNotAlreadyInUse db req = nextEff req.sessionUserId)
     ∧ ∀ s : String, req.bodyEmail = some s → s ≠ "" →
        ((findOneByEmail db s = none →
            isEmailNotAlreadyInUse db req = nextEff req.sessionUserId)
         ∧ (∀ u : User, findOneByEmail db s = some u →
              req.sessionUserId = some u.id →
              isEmailNotAlreadyInUse db req = nextEff req.sessionUserId)
         ∧ (∀ u : User, findOneByEmail db s = some u →
              req.sessionUserId ≠ some u.id →
              isEmailNotAlreadyInUse db req =
                respondEff req.sessionUserId 409
                  (Body.keyed "username" "An account with this email already exists.")))) := by
  refine ⟨⟨?_, ?_⟩, ?_, ?_⟩
  · intro h
    simp [isUsernameNotAlreadyInUse, h]
  · intro s hs hne
    refine ⟨?_, ?_, ?_⟩
    · intro hf
      simp [isUsernameNotAlreadyInUse, truthy, hs, hne, hf]
    · intro u hf hsid
      simp [isUsernameNotAlreadyInUse, truthy, hs, hne, hf, hsid]
    · intro u hf hsid
      simp [isUsernameNotAlreadyInUse, truthy, hs, hne, hf, hsid]
  · intro h
    simp [isEmailNotAlreadyInUse, h]
  · intro s hs hne
    refine ⟨?_, ?_, ?_⟩
    · intro hf
      simp [isEmailNotAlreadyInUse, truthy, hs, hne, hf]
    · intro u hf hsid
      simp [isEmailNotAlreadyInUse, truthy, hs, hne, hf, hsid]
    · intro u hf hsid
      simp [isEmailNotAlreadyInUse, truthy, hs, hne, hf, hsid]

/-- Witness for C4: with an existing user "bob" (id "1"), a registration
attempt (no session user) submitting username "bob" gets 409; "bob"
himself (session user "1") re-submitting "bob" passes through; likewise
for the email variant. -/
theorem uniqueness_checks_witness :
    isUsernameNotAlreadyInUse [⟨"1", "bob", "bob@x.com", "pw"⟩]
        { bodyUsername := some "bob" } =
      respondEff none 409
        (Body.keyed "username" "An account with this username already exists.")
    ∧ isUsernameNotAlreadyInUse [⟨"1", "bob", "bob@x.com", "pw"⟩]
        { sessionUserId := some "1", bodyUsername := some "bob" } =
      nextEff (some "1")
    ∧ isEmailNotAlreadyInUse [⟨"1", "bob", "bob@x.com", "pw"⟩]
        { bodyEmail := some "bob@x.com" } =
      respondEff none 409
        (Body.keyed "username" "An account with this email already exists.")
    ∧ isEmailNotAlreadyInUse [⟨"1", "bob", "bob@x.com", "pw"⟩]
        { sessionUserId := some "1", bodyEmail := some "bob@x.com" } =
      nextEff (some "1") :=
  ⟨(((uniqueness_checks [⟨"1", "bob", "bob@x.com", "pw"⟩]
        { bodyUsername := some "bob" }).1.2 "bob" rfl (by decide)).2.2
      ⟨"1", "bob", "bob@x.com", "pw"⟩ (by decide) (by decide)),
   (((uniqueness_checks [⟨"1", "bob", "bob@x.com", "pw"⟩]
        { sessionUserId := some "1", bodyUsername := some "bob" }).1.2 "bob" rfl
        (by decide)).2.1 ⟨"1", "bob", "bob@x.com", "pw"⟩ (by decide) rfl),
   (((uniqueness_checks [⟨"1", "bob", "bob@x.com", "pw"⟩]
        { bodyEmail := some "bob@x.com" }).2.2 "bob@x.com" rfl (by decide)).2.2
      ⟨"1", "bob", "bob@x.com", "pw"⟩ (by decide) (by decide)),
   (((uniqueness_checks [⟨"1", "bob", "bob@x.com", "pw"⟩]
        { sessionUserId := some "1", bodyEmail := some "bob@x.com" }).2.2
        "bob@x.com" rfl (by decide)).2.1 ⟨"1", "bob", "bob@x.com", "pw"⟩
      (by decide) rfl)⟩

/-! ## C7: credential existence check -/

/-- C7: `isAccountExists` responds 400 naming the missing credential when
`email` or `password` is missing from the body; with both present it
looks up by (email, password), calling through exactly when a matching
user exists and responding 401 otherwise. -/
theorem account_lookup (db : DB) (req : Req) :
    (truthy req.bodyEmail = false →
       isAccountExists db req = respondEff req.sessionUserId 400
         (Body.plain "Missing email credentials for sign in."))
    ∧ (truthy req.bodyEmail = true → truthy req.bodyPassword = false →
       isAccountExists db req = respondEff req.sessionUserId 400
         (Body.plain "Missing password credentials for sign in."))
    ∧ (∀ e p : String, req.bodyEmail = some e → req.bodyPassword = some p →
        e ≠ "" → p ≠ "" →
       ((∀ u : User, findOneByEmailAndPassword db e p = some u →
           isAccountExists db req = nextEff req.sessionUserId)
        ∧ (findOneByEmailAndPassword db e p = none →
           isAccountExists db req = respondEff req.sessionUserId 401
             (Body.plain "Invalid user login credentials provided.")))) := by
  refine ⟨?_, ?_, ?_⟩
  · intro h
    simp [isAccountExists, h]
  · intro he hp
    simp [isAccountExists, he, hp]
  · intro e p he hp hne hnp
    constructor
    · intro u hf
      simp [isAccountExists, truthy, he, hp, hne, hnp, hf]
    · intro hf
      simp [isAccountExists, truthy, he, hp, hne, hnp, hf]

/-- Witness for C7: against a collection holding bob, a login with the
right (email, password) passes, a login with the wrong password gets
401, and a login missing the email gets the 400 naming "email". -/
theorem account_lookup_witness :
    isAccountExists [⟨"1", "bob", "bob@x.com", "hunter2"⟩]
        { bodyEmail := some "bob@x.com", bodyPassword := some "hunter2" } =
      nextEff none
    ∧ isAccountExists [⟨"1", "bob", "bob@x.com", "hunter2"⟩]
        { bodyEmail := some "bob@x.com", bodyPassword := some "wrong" } =
      respondEff none 401 (Body.plain "Invalid user login credentials provided.")
    ∧ isAccountExists [⟨"1", "bob", "bob@x.com", "hunter2"⟩]
        { bodyPassword := some "hunter2" } =
      respondEff none 400 (Body.plain "Missing email credentials for sign in.") :=
  ⟨(((account_lookup [⟨"1", "bob", "bob@x.com", "hunter2"⟩]
        { bodyEmail := some "bob@x.com", bodyPassword := some "hunter2" }).2.2
      "bob@x.com" "hunter2" rfl rfl (by decide) (by decide)).1
      ⟨"1", "bob", "bob@x.com", "hunter2"⟩ (by decide)),
   (((account_lookup [⟨"1", "bob", "bob@x.com", "hunter2"⟩]
        { bodyEmail := some "bob@x.com", bodyPassword := some "wrong" }).2.2
      "bob@x.com" "wrong" rfl rfl (by decide) (by decide)).2 (by decide)),
   ((account_lookup [⟨"1", "bob", "bob@x.com", "hunter2"⟩]
        { bodyPassword := some "hunter2" }).1 rfl)⟩

/-! ## C10: the email-conflict 409 is keyed under "username" -/

/-- C10: whenever `isEmailNotAlreadyInUse` rejects a request, the single
response written is a 409 whose error body is keyed under "username"
(not "email"). -/
theorem email_conflict_keyed_under_username (db : DB) (req : Req)
    (h : (isEmailNotAlreadyInUse db req).nexts = 0) :
    (isEmailNotAlreadyInUse db req).writes =
      [(409, Body.keyed "username" "An account with this email already exists.")] := by
  unfold isEmailNotAlreadyInUse at h ⊢
  split at h
  · simp [nextEff] at h
  · split at h
    · simp [nextEff] at h
    · split at h
      · simp [nextEff] at h
      · simp_all [respondEff, nextEff]

/-- Witness for C10: bob's email submitted by a logged-out request is
rejected, and the 409 body is keyed under "username". -/
theorem email_conflict_keyed_under_username_witness :
    (isEmailNotAlreadyInUse [⟨"1", "bob", "bob@x.com", "pw"⟩]
        { bodyEmail := some "bob@x.com" }).nexts = 0
    ∧ (isEmailNotAlreadyInUse [⟨"1", "bob", "bob@x.com", "pw"⟩]
        { bodyEmail := some "bob@x.com" }).writes =
      [(409, Body.keyed "username" "An account with this email already exists.")] :=
  ⟨by decide,
   email_conflict_keyed_under_username [⟨"1", "bob", "bob@x.com", "pw"⟩]
     { bodyEmail := some "bob@x.com" } (by decide)⟩

/-- A truthy optional string is present. -/
theorem truthy_isSome (o : Option String) (h : truthy o = true) :
    o.isSome = true := by
  cases o with
  | none => simp [truthy] at h
  | some s => rfl

/-! ## C8: username format check -/

/-- Counterexample to C8 as stated: the empty string is a username
present in the request body that does not match `^\w+$`, yet
`isValidUsername` calls `next()` and writes nothing (the source guards
on JS truthiness, and `""` is falsy). -/
theorem username_empty_string_passes :
    ({ bodyUsername := some "" } : Req).bodyUsername = some ""
    ∧ usernameRE.matches "".data = false
    ∧ isValidUsername { bodyUsername := some "" } = nextEff none :=
  ⟨rfl, by decide, by decide⟩

/-- C8 (amended): every NONEMPTY username string present in the body that
does not match `^\w+$` gets a 400 with a username-keyed error; every
username matching `^\w+$` passes through. -/
theorem username_format_check (req : Req) (s : String)
    (hs : req.bodyUsername = some s) :
    (s ≠ "" → usernameRE.matches s.data = false →
       isValidUsername req = respondEff req.sessionUserId 400
         (Body.keyed "username" "Username must be a nonempty alphanumeric string."))
    ∧ (usernameRE.matches s.data = true →
       isValidUsername req = nextEff req.sessionUserId) := by
  constructor
  · intro hne hm
    simp [isValidUsername, truthy, hs, hne, hm]
  · intro hm
    have hne : s ≠ "" := by
      intro he
      subst he
      exact absurd hm (by decide)
    simp [isValidUsername, truthy, hs, hne, hm]

/-- Witness for C8 (amended): "bad name" (contains a space) gets the
username-keyed 400; "alice_92" passes through. -/
theorem username_format_check_witness :
    isValidUsername { bodyUsername := some "bad name" } =
      respondEff none 400
        (Body.keyed "username" "Username must be a nonempty alphanumeric string.")
    ∧ isValidUsername { bodyUsername := some "alice_92" } = nextEff none :=
  ⟨(username_format_check { bodyUsername := some "bad name" } "bad name" rfl).1
      (by decide) (by decide),
   (username_format_check { bodyUsername := some "alice_92" } "alice_92" rfl).2
      (by decide)⟩

/-! ## C5: email format check -/

/-- Counterexample to C5 as stated: "a@b!cd" does not match a
`local@domain.tld` pattern (it contains no dot at all), yet
`isValidEmail` calls `next()` on it: the source regex
`^[\w-.]+@([\w-]+.)+[\w-]{2,4}$` has an unescaped dot in the group, so
`b!` is accepted as a "domain segment". -/
theorem email_pattern_counterexample :
    ({ bodyEmail := some "a@b!cd" } : Req).bodyEmail = some "a@b!cd"
    ∧ specLocalDomainTld "a@b!cd" = false
    ∧ isValidEmail { bodyEmail := some "a@b!cd" } = nextEff none :=
  ⟨rfl, by decide, by decide⟩

/-- C5 (amended): every nonempty email string present in the body that
fails the SOURCE regex `^[\w-.]+@([\w-]+.)+[\w-]{2,4}$` (whose group dot
matches any character, making it looser than a strict
`local@domain.tld` pattern) gets a 400 and does not call through;
every string matching that regex — e.g. "a@b.com" — passes through. -/
theorem email_format_check (req : Req) (s : String)
    (hs : req.bodyEmail = some s) :
    (s ≠ "" → emailRE.matches s.data = false →
       isValidEmail req = respondEff req.sessionUserId 400
         (Body.plain "Email must be a valid email!"))
    ∧ (emailRE.matches s.data = true →
       isValidEmail req = nextEff req.sessionUserId) := by
  constructor
  · intro hne hm
    simp [isValidEmail, truthy, hs, hne, hm]
  · intro hm
    have hne : s ≠ "" := by
      intro he
      subst he
      exact absurd hm (by decide)
    simp [isValidEmail, truthy, hs, hne, hm]

/-- Witness for C5 (amended): "nope" fails the regex and gets 400;
"a@b.com" matches and passes through. -/
theorem email_format_check_witness :
    isValidEmail { bodyEmail := some "nope" } =
      respondEff none 400 (Body.plain "Email must be a valid email!")
    ∧ isValidEmail { bodyEmail := some "a@b.com" } = nextEff none :=
  ⟨(email_format_check { bodyEmail := some "nope" } "nope" rfl).1
      (by decide) (by decide),
   (email_format_check { bodyEmail := some "a@b.com" } "a@b.com" rfl).2
      (by decide)⟩

/-! ## C6: validators fire only when the field is present -/

/-- Counterexample to C6 as stated: `isValidEmail` rejects "nope" with a
PLAIN string error body, not one keyed by the field name — the claim's
shape `{ error: { email: message } }` does not hold (and likewise
`isValidPassword` and `isValidPeriod` use plain bodies). -/
theorem email_validator_body_not_keyed :
    (isValidEmail { bodyEmail := some "nope" }).writes =
      [(400, Body.plain "Email must be a valid email!")]
    ∧ Body.isKeyed (Body.plain "Email must be a valid email!") = false :=
  ⟨by decide, rfl⟩

/-- C6 (amended): each field-format validator fires only when the
corresponding field is present in the body, and on failure writes a
single 400 response; only `isValidUsername`'s error body is keyed by the
field name, while `isValidEmail`, `isValidPassword` and `isValidPeriod`
write a plain string error message. -/
theorem validators_fire_only_when_present (req : Req) :
    ((isValidUsername req).nexts = 0 →
       req.bodyUsername.isSome = true
       ∧ (isValidUsername req).writes =
         [(400, Body.keyed "username" "Username must be a nonempty alphanumeric string.")])
    ∧ ((isValidEmail req).nexts = 0 →
       req.bodyEmail.isSome = true
       ∧ (isValidEmail req).writes = [(400, Body.plain "Email must be a valid email!")])
    ∧ ((isValidPassword req).nexts = 0 →
       req.bodyPassword.isSome = true
       ∧ (isValidPassword req).writes =
         [(400, Body.plain "Password must be a nonempty string.")])
    ∧ ((isValidPeriod req).nexts = 0 →
       req.bodyNotifPeriod.isSome = true
       ∧ (isValidPeriod req).writes =
         [(400, Body.plain "Period must be one of the following: daily,weekly,monthly,none")]) := by
  refine ⟨?_, ?_, ?_, ?_⟩
  · intro h
    unfold isValidUsername at h ⊢
    by_cases hc : (truthy req.bodyUsername &&
        !(usernameRE.matches (req.bodyUsername.getD "").data)) = true
    · simp only [hc, if_true]
      exact ⟨truthy_isSome _ ((Bool.and_eq_true _ _).mp hc).1, rfl⟩
    · simp [hc, nextEff] at h
  · intro h
    unfold isValidEmail at h ⊢
    by_cases hc : (truthy req.bodyEmail &&
        !(emailRE.matches (req.bodyEmail.getD "").data)) = true
    · simp only [hc, if_true]
      exact ⟨truthy_isSome _ ((Bool.and_eq_true _ _).mp hc).1, rfl⟩
    · simp [hc, nextEff] at h
  · intro h
    unfold isValidPassword at h ⊢
    by_cases hc : (truthy req.bodyPassword &&
        !(passwordRE.matches (req.bodyPassword.getD "").data)) = true
    · simp only [hc, if_true]
      exact ⟨truthy_isSome _ ((Bool.and_eq_true _ _).mp hc).1, rfl⟩
    · simp [hc, nextEff] at h
  · intro h
    unfold isValidPeriod at h ⊢
    by_cases hc : (truthy req.bodyNotifPeriod &&
        !(validPeriod.contains (req.bodyNotifPeriod.getD ""))) = true
    · simp only [hc, if_true]
      exact ⟨truthy_isSome _ ((Bool.and_eq_true _ _).mp hc).1, rfl⟩
    · rw [if_neg hc] at h
      simp [nextEff] at h

/-- A request whose four validated fields are all present and all
invalid (space in username and password, malformed email, unknown
notification period). -/
def reqAllBad : Req :=
  { bodyUsername := some "a b", bodyEmail := some "nope",
    bodyPassword := some "a b", bodyNotifPeriod := some "yearly" }

/-- Witness for C6 (amended) at a request whose four fields are all
present and all invalid: each validator fires, each field is present,
and the four error bodies have the stated shapes. -/
theorem validators_fire_witness :
    (reqAllBad.bodyUsername.isSome = true
      ∧ (isValidUsername reqAllBad).writes =
        [(400, Body.keyed "username" "Username must be a nonempty alphanumeric string.")])
    ∧ (reqAllBad.bodyEmail.isSome = true
      ∧ (isValidEmail reqAllBad).writes =
        [(400, Body.plain "Email must be a valid email!")])
    ∧ (reqAllBad.bodyPassword.isSome = true
      ∧ (isValidPassword reqAllBad).writes =
        [(400, Body.plain "Password must be a nonempty string.")])
    ∧ (reqAllBad.bodyNotifPeriod.isSome = true
      ∧ (isValidPeriod reqAllBad).writes =
        [(400, Body.plain "Period must be one of the following: daily,weekly,monthly,none")]) :=
  ⟨(validators_fire_only_when_present reqAllBad).1 (by decide),
   (validators_fire_only_when_present reqAllBad).2.1 (by decide),
   (validators_fire_only_when_present reqAllBad).2.2.1 (by decide),
   (validators_fire_only_when_present reqAllBad).2.2.2 (by decide)⟩
